import Mathlib

/-!
Verification of the tmcl crate (Trinamic Motion Control Language encoder/decoder).

Shallow embedding conventions used throughout this file:
* a Rust `u8` byte is a `Nat` (values kept below 256 by `% 256` masks exactly where
  the source masks with `as u8` / `& 0xff`; theorems add `< 256` bounds where a
  result depends on byte-sized inputs);
* a Rust `u16`/`u32` is a `Nat`, a Rust `i8`/`i16`/`i32` is an `Int`;
* Rust `x >> k` on an unsigned value is `x / 2^k`; on a signed value it is the
  arithmetic shift, i.e. floor division, which is Lean `Int` division `/`;
* Rust `x as u8` on a signed value is the low byte in two of-complement form,
  i.e. `(x % 256).toNat` with the always-nonnegative `Int` remainder;
* Rust `a | b` where the set bits of `a` and `b` live in disjoint byte lanes
  (as in every operand-packing expression of the source) is addition;
* a Rust function that can panic (`unwrap`, `unimplemented!` with a bang) is
  modelled as `Option`-valued, `none` standing for the panic.
-/

namespace Tmcl

/-- The 4-byte operand of a command or reply, index 0 first.  Models the Rust
`[u8; 4]` array: `b0 = operand[0]`, ..., `b3 = operand[3]`. -/
structure Op4 where
  b0 : Nat
  b1 : Nat
  b2 : Nat
  b3 : Nat
deriving DecidableEq

/-- Reverses the byte order of an operand array. -/
def Op4.reverse (a : Op4) : Op4 := ⟨a.b3, a.b2, a.b1, a.b0⟩

/-- Rust `(x : u8) as i8`: reinterpret a byte as a signed 8-bit value. -/
def u8_as_i8 (n : Nat) : Int :=
  if n % 256 < 128 then (n % 256 : Nat) else (n % 256 : Nat) - 256

/-- Rust `(x : u16) as i16`: reinterpret as a signed 16-bit value. -/
def u16_as_i16 (n : Nat) : Int :=
  if n % 65536 < 32768 then (n % 65536 : Nat) else (n % 65536 : Nat) - 65536

/-- Rust `(x : u32) as i32`: reinterpret as a signed 32-bit value. -/
def u32_as_i32 (n : Nat) : Int :=
  if n % 4294967296 < 2147483648 then (n % 4294967296 : Nat)
  else (n % 4294967296 : Nat) - 4294967296

/-- Rust `(x : iN) as u8`: the low byte, two of-complement. -/
def int_as_u8 (v : Int) : Nat := (v % 256).toNat

/- ---------------------------------------------------------------------------
Status codes (src/lib.rs).
--------------------------------------------------------------------------- -/

/-- `OkStatus` from src/lib.rs: a `Status` that indicates that everything went
well. -/
inductive OkStatus
  /-- Successfully executed, no error (code 100). -/
  | Ok
  /-- Command loaded into TMCL program EEPROM (code 101). -/
  | LoadedIntoEEPROM
deriving DecidableEq

/-- `ErrStatus` from src/lib.rs: a `Status` that indicates an error occured. -/
inductive ErrStatus
  /-- Wrong checksum (code 1). -/
  | WrongChecksum
  /-- Invalid command (code 2). -/
  | InvalidCommand
  /-- Wrong type (code 3). -/
  | WrongType
  /-- Invalid value (code 4). -/
  | InvalidValue
  /-- Configuration EEPROM locked (code 5). -/
  | EEPROMLocked
  /-- Command not available (code 6). -/
  | CommandNotAvailable
deriving DecidableEq

/-- `Status` from src/lib.rs: every reply from a module contains a `Status`. -/
inductive Status
  | Ok (s : OkStatus)
  | Err (e : ErrStatus)
deriving DecidableEq

/-- `NonValidErrorCode` from src/lib.rs: the result of attempting to convert a
number that is not a valid status code into `Status`. -/
inductive NonValidErrorCode
  | mk
deriving DecidableEq

/-- `Status::try_from_u8` from src/lib.rs: fallible conversion from `u8`.
The source is a `match` on the byte with arms 100, 101, 1, 2, 3, 4, 5, 6 and a
catch-all error arm; a first-match `if` chain renders the same function. -/
def Status.try_from_u8 (id : Nat) : Except NonValidErrorCode Status :=
  if id = 100 then Except.ok (Status.Ok OkStatus.Ok)
  else if id = 101 then Except.ok (Status.Ok OkStatus.LoadedIntoEEPROM)
  else if id = 1 then Except.ok (Status.Err ErrStatus.WrongChecksum)
  else if id = 2 then Except.ok (Status.Err ErrStatus.InvalidCommand)
  else if id = 3 then Except.ok (Status.Err ErrStatus.WrongType)
  else if id = 4 then Except.ok (Status.Err ErrStatus.InvalidValue)
  else if id = 5 then Except.ok (Status.Err ErrStatus.EEPROMLocked)
  else if id = 6 then Except.ok (Status.Err ErrStatus.CommandNotAvailable)
  else Except.error NonValidErrorCode.mk

/- ---------------------------------------------------------------------------
The Return decoders: `impl Return for ...` in src/lib.rs.  The source method is
`from_operand(array: [u8; 4])`; each impl block is one function here.
--------------------------------------------------------------------------- -/

/-- `impl Return for ()` (src/lib.rs): discards the operand. -/
def unit_from_operand (_a : Op4) : Unit := ()

/-- `impl Return for [u8; 4]` (src/lib.rs): the identity. -/
def array_from_operand (a : Op4) : Op4 := a

/-- `impl Return for bool` (src/lib.rs):
`array[0] != 0 || array[1] != 0 || array[2] != 0 || array[3] != 0`. -/
def bool_from_operand (a : Op4) : Bool :=
  (a.b0 != 0) || (a.b1 != 0) || (a.b2 != 0) || (a.b3 != 0)

/-- `impl Return for u8` (src/lib.rs): `array[0]`. -/
def u8_from_operand (a : Op4) : Nat := a.b0

/-- `impl Return for u16` (src/lib.rs): `array[0] as u16 | (array[1] as u16) << 8`
(disjoint byte lanes, so the bitor is addition). -/
def u16_from_operand (a : Op4) : Nat := a.b0 + a.b1 * 256

/-- `impl Return for u32` (src/lib.rs):
`array[0] as u32 | (array[1] as u32) << 8 | (array[2] as u32) << 16 | (array[3] as u32) << 24`. -/
def u32_from_operand (a : Op4) : Nat :=
  a.b0 + a.b1 * 256 + a.b2 * 65536 + a.b3 * 16777216

/-- `impl Return for i8` (src/lib.rs): `array[0] as i8`. -/
def i8_from_operand (a : Op4) : Int := u8_as_i8 a.b0

/-- `impl Return for i16` (src/lib.rs): the u16 reassembly cast `as i16`. -/
def i16_from_operand (a : Op4) : Int := u16_as_i16 (u16_from_operand a)

/-- `impl Return for i32` (src/lib.rs): the u32 reassembly cast `as i32`. -/
def i32_from_operand (a : Op4) : Int := u32_as_i32 (u32_from_operand a)

/- ---------------------------------------------------------------------------
The write-side operand encoders: the arms of `axis_param_define_write` in
src/axis_parameters.rs.  Each arm renders `self.0` into a 4-byte operand,
least-significant byte at index 0, unused high bytes zero.
--------------------------------------------------------------------------- -/

/-- `axis_param_define_write`, `u32` arm:
`[(v >> 0) as u8, (v >> 8) as u8, (v >> 16) as u8, (v >> 24) as u8]`. -/
def axis_param_define_write_u32 (v : Nat) : Op4 :=
  ⟨v % 256, v / 256 % 256, v / 65536 % 256, v / 16777216 % 256⟩

/-- `axis_param_define_write`, `u16` arm: `[(v >> 0) as u8, (v >> 8) as u8, 0, 0]`. -/
def axis_param_define_write_u16 (v : Nat) : Op4 :=
  ⟨v % 256, v / 256 % 256, 0, 0⟩

/-- `axis_param_define_write`, `u8` arm: `[(v >> 0) as u8, 0, 0, 0]`. -/
def axis_param_define_write_u8 (v : Nat) : Op4 :=
  ⟨v % 256, 0, 0, 0⟩

/-- `axis_param_define_write`, `i32` arm (arithmetic shifts, then `as u8`). -/
def axis_param_define_write_i32 (v : Int) : Op4 :=
  ⟨int_as_u8 v, int_as_u8 (v / 256), int_as_u8 (v / 65536), int_as_u8 (v / 16777216)⟩

/-- `axis_param_define_write`, `i16` arm. -/
def axis_param_define_write_i16 (v : Int) : Op4 :=
  ⟨int_as_u8 v, int_as_u8 (v / 256), 0, 0⟩

/-- `axis_param_define_write`, `i8` arm. -/
def axis_param_define_write_i8 (v : Int) : Op4 :=
  ⟨int_as_u8 v, 0, 0, 0⟩

/-- `axis_param_define_write`, `bool` arm: `[v as u8, 0, 0, 0]`. -/
def axis_param_define_write_bool (v : Bool) : Op4 :=
  ⟨cond v 1 0, 0, 0, 0⟩

/- ---------------------------------------------------------------------------
The Instruction model (src/instructions.rs) and Command framing (src/lib.rs).
--------------------------------------------------------------------------- -/

/-- The `Instruction` trait of src/instructions.rs: an instruction number fixed
per variant, plus per-instance type number, motor/bank number and operand. -/
class Instruction (T : Type) where
  INSTRUCTION_NUMBER : Nat
  type_number : T → Nat
  motor_bank_number : T → Nat
  operand : T → Op4

/-- The `DirectInstruction` trait of src/instructions.rs: adds the declared
return type of the instruction and its decoder (`Return::from_operand`). -/
class DirectInstruction (T : Type) extends Instruction T where
  Ret : Type
  ret_from_operand : Op4 → Ret

/-- `ROR` (src/instructions.rs): rotate right, motor number plus `u32` velocity. -/
structure ROR where
  motor_number : Nat
  velocity : Nat
deriving DecidableEq

/-- `ROR::new` (src/instructions.rs). -/
def ROR.new (motor_number : Nat) (velocity : Nat) : ROR := ⟨motor_number, velocity⟩

/-- `impl Instruction for ROR` and `impl DirectInstruction for ROR`
(src/instructions.rs): instruction number 1, type number 0, operand the
velocity little-endian (`(v >> k) & 0xff` per byte), return type `()`. -/
instance : DirectInstruction ROR where
  INSTRUCTION_NUMBER := 1
  type_number _ := 0
  motor_bank_number r := r.motor_number
  operand r :=
    ⟨r.velocity % 256, r.velocity / 256 % 256,
     r.velocity / 65536 % 256, r.velocity / 16777216 % 256⟩
  Ret := Unit
  ret_from_operand := unit_from_operand

/-- `Command` (src/lib.rs): an `Instruction` with a module address. -/
structure Command (T : Type) [Instruction T] where
  module_address : Nat
  instruction : T

/-- `Command::new` (src/lib.rs). -/
def Command.new {T : Type} [Instruction T] (module_address : Nat) (instruction : T) :
    Command T :=
  ⟨module_address, instruction⟩

/-- `Command::serialize` (src/lib.rs): the serial (RS232/RS485) 9-byte format.
The source body is `unimplemented!()` with a bang, an unconditional panic,
modelled as `none`. -/
def Command.serialize {T : Type} [Instruction T] (_c : Command T) :
    Option (List Nat) :=
  none

/-- `Command::serialize_i2c` (src/lib.rs): the I2C 8-byte format.  The source
body is `unimplemented!()` with a bang, an unconditional panic, modelled as
`none`. -/
def Command.serialize_i2c {T : Type} [Instruction T] (_c : Command T) :
    Option (List Nat) :=
  none

/-- `Command::serialize_can` (src/lib.rs): the CAN 7-byte format
`[CMD_N, TYPE_N, MOTOR_N, VALUE3, VALUE2, VALUE1, VALUE0]`; module address and
checksum are omitted, the operand goes most-significant byte first. -/
def Command.serialize_can {T : Type} [Instruction T] (c : Command T) : List Nat :=
  [Instruction.INSTRUCTION_NUMBER (T := T),
   Instruction.type_number c.instruction,
   Instruction.motor_bank_number c.instruction,
   (Instruction.operand c.instruction).b3,
   (Instruction.operand c.instruction).b2,
   (Instruction.operand c.instruction).b1,
   (Instruction.operand c.instruction).b0]

/-- `Reply` (src/lib.rs): what a module sends back after a `Command`. -/
structure Reply where
  reply_address : Nat
  module_address : Nat
  status : Status
  command_number : Nat
  operand : Op4
deriving DecidableEq

/-- `Reply::new` (src/lib.rs). -/
def Reply.new (reply_address module_address : Nat) (status : Status)
    (command_number : Nat) (operand : Op4) : Reply :=
  ⟨reply_address, module_address, status, command_number, operand⟩

/-- `Error` (src/lib.rs): all possible errors when communicating. -/
inductive Error (T : Type)
  /-- The library could not get the mutable reference to the interface. -/
  | InterfaceUnavailable
  /-- The interface had an error. -/
  | InterfaceError (e : T)
  /-- The TMCL module reported an error. -/
  | ProtocolError (e : ErrStatus)
deriving DecidableEq

/- ---------------------------------------------------------------------------
The module dispatcher: `GenericModule::write_command`
(src/modules/generic/mod.rs).  `TmcmModule::write_command`
(src/modules/tmcm/mod.rs) is line-for-line the same exchange.

The interface collaborator is modelled by its observable behaviour during the
single exchange: whether `borrow_int_mut` succeeds, what `transmit_command`
returns, and what `receive_reply` returns.  `write_command` returns, besides
the `Result`, the list of commands handed to `transmit_command` and the number
of `receive_reply` calls, so that the one-shot (no retry) discipline is part of
the embedded behaviour.
--------------------------------------------------------------------------- -/

/-- Observable single-exchange behaviour of an `Interface` implementation. -/
structure IfaceBehavior (E : Type) where
  /-- Whether `borrow_int_mut` succeeds. -/
  available : Bool
  /-- The result of `transmit_command`, if it is called. -/
  transmitResult : Except E Unit
  /-- The result of `receive_reply`, if it is called. -/
  receiveResult : Except E Reply

/-- `GenericModule::write_command` (src/modules/generic/mod.rs): borrow the
interface or fail with `InterfaceUnavailable`; transmit the command built from
the module address and the instruction; receive one reply; map an Ok status to
the decoded declared return value and an Err status to `ProtocolError`.
Besides the result, the value records the commands transmitted and how many
times `receive_reply` was invoked. -/
def GenericModule.write_command {E T : Type} [inst : DirectInstruction T]
    (address : Nat) (instruction : T) (iface : IfaceBehavior E) :
    Except (Error E) (DirectInstruction.Ret T) × List (Command T) × Nat :=
  if iface.available then
    match iface.transmitResult with
    | Except.error e =>
        (Except.error (Error.InterfaceError e), [Command.new address instruction], 0)
    | Except.ok _ =>
        match iface.receiveResult with
        | Except.error e =>
            (Except.error (Error.InterfaceError e), [Command.new address instruction], 1)
        | Except.ok reply =>
            match reply.status with
            | Status.Ok _ =>
                (Except.ok (DirectInstruction.ret_from_operand reply.operand),
                 [Command.new address instruction], 1)
            | Status.Err e =>
                (Except.error (Error.ProtocolError e),
                 [Command.new address instruction], 1)
  else (Except.error Error.InterfaceUnavailable, [], 0)

/- ---------------------------------------------------------------------------
The socketcan interface implementation (src/socketcan_impl.rs).
--------------------------------------------------------------------------- -/

/-- A received CAN frame: arbitration id plus the data bytes the source reads
(`frame.data()[0]` through `frame.data()[6]`). -/
structure CANFrame where
  id : Nat
  data0 : Nat
  data1 : Nat
  data2 : Nat
  data3 : Nat
  data4 : Nat
  data5 : Nat
  data6 : Nat

/-- `CANSocket::receive_reply` (src/socketcan_impl.rs): builds a `Reply` from a
received frame as
`Reply::new(frame.id() as u8, data[0], Status::try_from_u8(data[1]).unwrap(), data[2], [data[3], data[4], data[5], data[6]])`.
The `unwrap` panic on an invalid status byte is modelled as `none`.  Note the
operand bytes are copied in wire order, without any reversal. -/
def CANSocket.receive_reply (frame : CANFrame) : Option Reply :=
  match Status.try_from_u8 frame.data1 with
  | Except.error _ => none
  | Except.ok s =>
      some (Reply.new (frame.id % 256) frame.data0 s frame.data2
        ⟨frame.data3, frame.data4, frame.data5, frame.data6⟩)

/- ---------------------------------------------------------------------------
The TMCM axis parameters (src/modules/tmcm/axis_parameters.rs).  This revision
of the crate names the reply decoder `deserialize` and the writer
`serialize_value`; both index the operand array with index 3 as the least
significant byte (the wire order), opposite to the `from_operand` /
`axis_param_define_write` convention above.
--------------------------------------------------------------------------- -/

/-- `ActualPosition` (parameter number 1): the current position, `i32`. -/
structure ActualPosition where
  pos : Int
deriving DecidableEq

/-- `AxisParameter::NUMBER` for `ActualPosition`. -/
def ActualPosition.NUMBER : Nat := 1

/-- `impl Return for ActualPosition`:
`(array[3] as u32 | (array[2] as u32) << 8 | (array[1] as u32) << 16 | (array[0] as u32) << 24) as i32`. -/
def ActualPosition.deserialize (a : Op4) : ActualPosition :=
  ⟨u32_as_i32 (a.b3 + a.b2 * 256 + a.b1 * 65536 + a.b0 * 16777216)⟩

/-- `WriteableAxisParameter::serialize_value` for `ActualPosition`:
`[(pos >> 24) as u8, (pos >> 16) as u8, (pos >> 8) as u8, pos as u8]`. -/
def ActualPosition.serialize_value (p : ActualPosition) : Op4 :=
  ⟨int_as_u8 (p.pos / 16777216), int_as_u8 (p.pos / 65536),
   int_as_u8 (p.pos / 256), int_as_u8 p.pos⟩

/-- `ActualSpeed` (parameter number 3): the current rotation speed, `i16`.
Read only: the source has no `impl WriteableAxisParameter for ActualSpeed`. -/
structure ActualSpeed where
  speed : Int
deriving DecidableEq

/-- `AxisParameter::NUMBER` for `ActualSpeed`. -/
def ActualSpeed.NUMBER : Nat := 3

/-- `impl Return for ActualSpeed`:
`(array[3] as u16 | (array[2] as u16) << 8) as i16`. -/
def ActualSpeed.deserialize (a : Op4) : ActualSpeed :=
  ⟨u16_as_i16 (a.b3 + a.b2 * 256)⟩

/-- `MaximumPositioningSpeed` (parameter number 4): `u16`, at most 2047. -/
structure MaximumPositioningSpeed where
  speed : Nat
deriving DecidableEq

/-- `AxisParameter::NUMBER` for `MaximumPositioningSpeed`. -/
def MaximumPositioningSpeed.NUMBER : Nat := 4

/-- `MaximumPositioningSpeed::new`: `assert!(speed <= 2047)` panics on an
out-of-range speed, modelled as `none`. -/
def MaximumPositioningSpeed.new (speed : Nat) : Option MaximumPositioningSpeed :=
  if speed ≤ 2047 then some ⟨speed⟩ else none

/-- `impl Return for MaximumPositioningSpeed`:
`array[3] as u16 | (array[2] as u16) << 8`. -/
def MaximumPositioningSpeed.deserialize (a : Op4) : MaximumPositioningSpeed :=
  ⟨a.b3 + a.b2 * 256⟩

/-- `WriteableAxisParameter::serialize_value` for `MaximumPositioningSpeed`:
`[0, 0, (speed >> 8) as u8, speed as u8]` - most significant byte first. -/
def MaximumPositioningSpeed.serialize_value (p : MaximumPositioningSpeed) : Op4 :=
  ⟨0, 0, p.speed / 256 % 256, p.speed % 256⟩

/-- `AbsoluteMaxCurrent` (parameter number 6): `u16`. -/
structure AbsoluteMaxCurrent where
  current : Nat
deriving DecidableEq

/-- `AxisParameter::NUMBER` for `AbsoluteMaxCurrent`. -/
def AbsoluteMaxCurrent.NUMBER : Nat := 6

/-- `impl Return for AbsoluteMaxCurrent`:
`array[3] as u16 | (array[2] as u16) << 8`. -/
def AbsoluteMaxCurrent.deserialize (a : Op4) : AbsoluteMaxCurrent :=
  ⟨a.b3 + a.b2 * 256⟩

/-- `WriteableAxisParameter::serialize_value` for `AbsoluteMaxCurrent`:
`[0, 0, (current >> 8) as u8, current as u8]`. -/
def AbsoluteMaxCurrent.serialize_value (p : AbsoluteMaxCurrent) : Op4 :=
  ⟨0, 0, p.current / 256 % 256, p.current % 256⟩

/-- `RightLimitSwitchDisable` (parameter number 12): `bool`. -/
structure RightLimitSwitchDisable where
  status : Bool
deriving DecidableEq

/-- `AxisParameter::NUMBER` for `RightLimitSwitchDisable`. -/
def RightLimitSwitchDisable.NUMBER : Nat := 12

/-- `impl Return for RightLimitSwitchDisable`: `array[3] != 0`. -/
def RightLimitSwitchDisable.deserialize (a : Op4) : RightLimitSwitchDisable :=
  ⟨a.b3 != 0⟩

/-- `WriteableAxisParameter::serialize_value` for `RightLimitSwitchDisable`:
`[0, 0, 0, status as u8]`. -/
def RightLimitSwitchDisable.serialize_value (p : RightLimitSwitchDisable) : Op4 :=
  ⟨0, 0, 0, cond p.status 1 0⟩

/-- `LeftLimitSwitchDisable` (parameter number 13): `bool`. -/
structure LeftLimitSwitchDisable where
  status : Bool
deriving DecidableEq

/-- `AxisParameter::NUMBER` for `LeftLimitSwitchDisable`. -/
def LeftLimitSwitchDisable.NUMBER : Nat := 13

/-- `impl Return for LeftLimitSwitchDisable`: `array[3] != 0`. -/
def LeftLimitSwitchDisable.deserialize (a : Op4) : LeftLimitSwitchDisable :=
  ⟨a.b3 != 0⟩

/-- `WriteableAxisParameter::serialize_value` for `LeftLimitSwitchDisable`:
`[0, 0, 0, status as u8]`. -/
def LeftLimitSwitchDisable.serialize_value (p : LeftLimitSwitchDisable) : Op4 :=
  ⟨0, 0, 0, cond p.status 1 0⟩

/-- `MicrostepResolution` (parameter number 140): a 7-level enumeration with
discriminants 0 through 6. -/
inductive MicrostepResolution
  | Full
  | Half
  | Micro4
  | Micro8
  | Micro16
  | Micro32
  | Micro64
deriving DecidableEq

/-- The numeric discriminant of `MicrostepResolution` (Rust `*self as u8`). -/
def MicrostepResolution.discriminant : MicrostepResolution → Nat
  | .Full => 0
  | .Half => 1
  | .Micro4 => 2
  | .Micro8 => 3
  | .Micro16 => 4
  | .Micro32 => 5
  | .Micro64 => 6

/-- `AxisParameter::NUMBER` for `MicrostepResolution`. -/
def MicrostepResolution.NUMBER : Nat := 140

/-- `MicrostepResolution::try_from_u8`: bytes 0 through 6 map to the seven
levels, anything else is `Err(())`. -/
def MicrostepResolution.try_from_u8 (v : Nat) : Except Unit MicrostepResolution :=
  if v = 0 then Except.ok MicrostepResolution.Full
  else if v = 1 then Except.ok MicrostepResolution.Half
  else if v = 2 then Except.ok MicrostepResolution.Micro4
  else if v = 3 then Except.ok MicrostepResolution.Micro8
  else if v = 4 then Except.ok MicrostepResolution.Micro16
  else if v = 5 then Except.ok MicrostepResolution.Micro32
  else if v = 6 then Except.ok MicrostepResolution.Micro64
  else Except.error ()

/-- `impl Return for MicrostepResolution`:
`MicrostepResolution::try_from_u8(array[3]).unwrap()`.  The `unwrap` panic on
an out-of-range byte is modelled as `none`. -/
def MicrostepResolution.deserialize (a : Op4) : Option MicrostepResolution :=
  (MicrostepResolution.try_from_u8 a.b3).toOption

/-- `WriteableAxisParameter::serialize_value` for `MicrostepResolution`:
`[0, 0, 0, *self as u8]`. -/
def MicrostepResolution.serialize_value (m : MicrostepResolution) : Op4 :=
  ⟨0, 0, 0, m.discriminant⟩

/- ---------------------------------------------------------------------------
The capability model for the TMCM axis parameters.  The source enforces the
read/write capabilities through trait bounds: `SAP<T>` requires
`T: WriteableAxisParameter` and `GAP<T>` requires `T: ReadableAxisParameter`
(src/instructions.rs), so an instruction value can only exist together with
evidence that the parameter type has the needed impl.  The tables below record,
per parameter type, exactly which impl blocks exist in
src/modules/tmcm/axis_parameters.rs, and the typed instructions carry that
evidence as a proof field.
--------------------------------------------------------------------------- -/

/-- The axis parameter types defined in src/modules/tmcm/axis_parameters.rs. -/
inductive TmcmParam
  | ActualPosition
  | ActualSpeed
  | MaximumPositioningSpeed
  | AbsoluteMaxCurrent
  | RightLimitSwitchDisable
  | LeftLimitSwitchDisable
  | MicrostepResolution
deriving DecidableEq

/-- The semantic value type of each parameter. -/
def TmcmParam.Value : TmcmParam → Type
  | .ActualPosition => Tmcl.ActualPosition
  | .ActualSpeed => Tmcl.ActualSpeed
  | .MaximumPositioningSpeed => Tmcl.MaximumPositioningSpeed
  | .AbsoluteMaxCurrent => Tmcl.AbsoluteMaxCurrent
  | .RightLimitSwitchDisable => Tmcl.RightLimitSwitchDisable
  | .LeftLimitSwitchDisable => Tmcl.LeftLimitSwitchDisable
  | .MicrostepResolution => Tmcl.MicrostepResolution

/-- Which parameter types have an `impl ReadableAxisParameter` block in
src/modules/tmcm/axis_parameters.rs (all seven do). -/
def implReadableAxisParameter : TmcmParam → Bool
  | .ActualPosition => true
  | .ActualSpeed => true
  | .MaximumPositioningSpeed => true
  | .AbsoluteMaxCurrent => true
  | .RightLimitSwitchDisable => true
  | .LeftLimitSwitchDisable => true
  | .MicrostepResolution => true

/-- Which parameter types have an `impl WriteableAxisParameter` block in
src/modules/tmcm/axis_parameters.rs (all except the read-only `ActualSpeed`). -/
def implWriteableAxisParameter : TmcmParam → Bool
  | .ActualPosition => true
  | .ActualSpeed => false
  | .MaximumPositioningSpeed => true
  | .AbsoluteMaxCurrent => true
  | .RightLimitSwitchDisable => true
  | .LeftLimitSwitchDisable => true
  | .MicrostepResolution => true

/-- `SAP<T: WriteableAxisParameter>` (src/instructions.rs) over a TMCM
parameter: a set-parameter instruction can only be constructed together with
evidence that the parameter type is writeable. -/
structure SAPTyped where
  motor_number : Nat
  param : TmcmParam
  value : param.Value
  writeable : implWriteableAxisParameter param = true

/-- `GAP<T: ReadableAxisParameter>` (src/instructions.rs) over a TMCM
parameter: a get-parameter instruction can only be constructed together with
evidence that the parameter type is readable; it carries no value (the source
field is `PhantomData<T>`). -/
structure GAPTyped where
  motor_number : Nat
  param : TmcmParam
  readable : implReadableAxisParameter param = true

/- ---------------------------------------------------------------------------
Theorems.
--------------------------------------------------------------------------- -/

/-- Claim C1: for every direct instruction and every interface state,
`write_command` first tries to acquire exclusive access to the interface and
returns `InterfaceUnavailable` immediately (transmitting nothing) if it cannot;
otherwise it transmits exactly the one command built from the module address
and the instruction and calls `receive_reply` at most once, with no retry; an
Ok-family reply status yields `Ok` of the declared return type decoded from the
reply operand, and an Err-family status yields `ProtocolError` carrying exactly
that `ErrStatus` variant. -/
theorem C1_write_command_contract {E T : Type} [inst : DirectInstruction T]
    (address : Nat) (instruction : T) (iface : IfaceBehavior E) :
    (iface.available = false →
      GenericModule.write_command address instruction iface =
        (Except.error Error.InterfaceUnavailable, [], 0)) ∧
    (iface.available = true →
      (GenericModule.write_command address instruction iface).2.1 =
        [Command.new address instruction] ∧
      (GenericModule.write_command address instruction iface).2.2 ≤ 1) ∧
    (∀ (reply : Reply) (okS : OkStatus),
      iface.available = true → iface.transmitResult = Except.ok () →
      iface.receiveResult = Except.ok reply → reply.status = Status.Ok okS →
      GenericModule.write_command address instruction iface =
        (Except.ok (DirectInstruction.ret_from_operand reply.operand),
         [Command.new address instruction], 1)) ∧
    (∀ (reply : Reply) (e : ErrStatus),
      iface.available = true → iface.transmitResult = Except.ok () →
      iface.receiveResult = Except.ok reply → reply.status = Status.Err e →
      GenericModule.write_command address instruction iface =
        (Except.error (Error.ProtocolError e), [Command.new address instruction], 1)) ∧
    (∀ e : E,
      iface.available = true → iface.transmitResult = Except.error e →
      GenericModule.write_command address instruction iface =
        (Except.error (Error.InterfaceError e), [Command.new address instruction], 0)) := by
  obtain ⟨av, tr, rc⟩ := iface
  refine ⟨?_, ?_, ?_, ?_, ?_⟩
  · intro h
    simp only at h
    subst h
    rfl
  · intro h
    simp only at h
    subst h
    cases tr with
    | error e => exact ⟨rfl, Nat.zero_le 1⟩
    | ok u =>
        cases rc with
        | error e => exact ⟨rfl, Nat.le_refl 1⟩
        | ok reply =>
            obtain ⟨ra, ma, st, cn, op⟩ := reply
            cases st with
            | Ok s => exact ⟨rfl, Nat.le_refl 1⟩
            | Err e => exact ⟨rfl, Nat.le_refl 1⟩
  · intro reply okS h1 h2 h3 h4
    simp only at h1 h2 h3
    subst h1; subst h2; subst h3
    simp [GenericModule.write_command, h4]
  · intro reply e h1 h2 h3 h4
    simp only at h1 h2 h3
    subst h1; subst h2; subst h3
    simp [GenericModule.write_command, h4]
  · intro e h1 h2
    simp only at h1 h2
    subst h1; subst h2
    rfl

/-- Claim C1 witness: concrete exchanges through `write_command` - a success
with status 100, a busy interface, and a protocol error with status 4. -/
theorem C1_write_command_contract_witness :
    GenericModule.write_command (E := Unit) 3 (ROR.new 0 250)
      ⟨true, Except.ok (), Except.ok (Reply.new 1 3 (Status.Ok OkStatus.Ok) 1 ⟨1, 2, 3, 4⟩)⟩ =
      (Except.ok (), [Command.new 3 (ROR.new 0 250)], 1) ∧
    GenericModule.write_command (E := Unit) 3 (ROR.new 0 250)
      ⟨false, Except.ok (), Except.ok (Reply.new 1 3 (Status.Ok OkStatus.Ok) 1 ⟨1, 2, 3, 4⟩)⟩ =
      (Except.error Error.InterfaceUnavailable, [], 0) ∧
    GenericModule.write_command (E := Unit) 3 (ROR.new 0 250)
      ⟨true, Except.ok (), Except.ok (Reply.new 1 3 (Status.Err ErrStatus.InvalidValue) 1 ⟨0, 0, 0, 0⟩)⟩ =
      (Except.error (Error.ProtocolError ErrStatus.InvalidValue), [Command.new 3 (ROR.new 0 250)], 1) :=
  ⟨(C1_write_command_contract 3 (ROR.new 0 250) _).2.2.1
      (Reply.new 1 3 (Status.Ok OkStatus.Ok) 1 ⟨1, 2, 3, 4⟩) OkStatus.Ok rfl rfl rfl rfl,
   (C1_write_command_contract 3 (ROR.new 0 250) _).1 rfl,
   (C1_write_command_contract 3 (ROR.new 0 250) _).2.2.2.1
      (Reply.new 1 3 (Status.Err ErrStatus.InvalidValue) 1 ⟨0, 0, 0, 0⟩)
      ErrStatus.InvalidValue rfl rfl rfl rfl⟩

/-- Claim C2: serializing `ROR::new(0, 250)` for CAN yields exactly
`[1, 0, 0, 0, 0, 0, 250]` for every module address, and in general
`serialize_can` emits
`[INSTRUCTION_NUMBER, type_number, motor_bank_number, operand[3], operand[2], operand[1], operand[0]]`,
omitting module address and checksum and placing the operand most significant
byte first. -/
theorem C2_serialize_can_layout :
    (∀ addr : Nat,
      (Command.new addr (ROR.new 0 250)).serialize_can = [1, 0, 0, 0, 0, 0, 250]) ∧
    (∀ (T : Type) [Instruction T] (c : Command T),
      c.serialize_can =
        [Instruction.INSTRUCTION_NUMBER (T := T),
         Instruction.type_number c.instruction,
         Instruction.motor_bank_number c.instruction,
         (Instruction.operand c.instruction).b3,
         (Instruction.operand c.instruction).b2,
         (Instruction.operand c.instruction).b1,
         (Instruction.operand c.instruction).b0]) := by
  constructor
  · intro addr
    simp [Command.serialize_can, Command.new, ROR.new]
    decide
  · intro T instT c
    rfl

/-- Claim C3: for every representable value of every supported semantic type,
decoding the operand produced by the little-endian encoder yields the value
back, and a boolean decodes as true exactly when some operand byte is
non-zero. -/
theorem C3_operand_roundtrip :
    (∀ v : Nat, v < 256 → u8_from_operand (axis_param_define_write_u8 v) = v) ∧
    (∀ v : Nat, v < 65536 → u16_from_operand (axis_param_define_write_u16 v) = v) ∧
    (∀ v : Nat, v < 4294967296 → u32_from_operand (axis_param_define_write_u32 v) = v) ∧
    (∀ v : Int, -128 ≤ v → v < 128 → i8_from_operand (axis_param_define_write_i8 v) = v) ∧
    (∀ v : Int, -32768 ≤ v → v < 32768 →
      i16_from_operand (axis_param_define_write_i16 v) = v) ∧
    (∀ v : Int, -2147483648 ≤ v → v < 2147483648 →
      i32_from_operand (axis_param_define_write_i32 v) = v) ∧
    (∀ b : Bool, bool_from_operand (axis_param_define_write_bool b) = b) ∧
    (∀ a : Op4, bool_from_operand a = true ↔
      (a.b0 ≠ 0 ∨ a.b1 ≠ 0 ∨ a.b2 ≠ 0 ∨ a.b3 ≠ 0)) := by
  refine ⟨?_, ?_, ?_, ?_, ?_, ?_, ?_, ?_⟩
  · intro v h
    simp only [u8_from_operand, axis_param_define_write_u8]
    omega
  · intro v h
    simp only [u16_from_operand, axis_param_define_write_u16]
    omega
  · intro v h
    simp only [u32_from_operand, axis_param_define_write_u32]
    omega
  · intro v h1 h2
    simp only [i8_from_operand, axis_param_define_write_i8, u8_as_i8, int_as_u8]
    split <;> omega
  · intro v h1 h2
    simp only [i16_from_operand, u16_from_operand, axis_param_define_write_i16,
      u16_as_i16, int_as_u8]
    split <;> omega
  · intro v h1 h2
    simp only [i32_from_operand, u32_from_operand, axis_param_define_write_i32,
      u32_as_i32, int_as_u8]
    split <;> omega
  · intro b
    cases b <;> rfl
  · intro a
    simp [bool_from_operand]
    tauto

/-- Claim C3 witness: the round trip at boundary values, through the claim
theorem. -/
theorem C3_operand_roundtrip_witness :
    u16_from_operand (axis_param_define_write_u16 65535) = 65535 ∧
    i16_from_operand (axis_param_define_write_i16 (-1)) = -1 ∧
    i32_from_operand (axis_param_define_write_i32 (-2147483648)) = -2147483648 :=
  ⟨C3_operand_roundtrip.2.1 65535 (by decide),
   C3_operand_roundtrip.2.2.2.2.1 (-1) (by decide) (by decide),
   C3_operand_roundtrip.2.2.2.2.2.1 (-2147483648) (by decide) (by decide)⟩

/-- Claim C4: `Status::try_from_u8` maps exactly the bytes 100 and 101 to the
two Ok variants and exactly the bytes 1 through 6 to the six Err variants, one
byte to one variant, and returns `NonValidErrorCode` for every other byte. -/
theorem C4_status_try_from_u8_exact :
    (∀ (b : Nat) (s : Status),
      Status.try_from_u8 b = Except.ok s ↔
        ((b = 100 ∧ s = Status.Ok OkStatus.Ok) ∨
         (b = 101 ∧ s = Status.Ok OkStatus.LoadedIntoEEPROM) ∨
         (b = 1 ∧ s = Status.Err ErrStatus.WrongChecksum) ∨
         (b = 2 ∧ s = Status.Err ErrStatus.InvalidCommand) ∨
         (b = 3 ∧ s = Status.Err ErrStatus.WrongType) ∨
         (b = 4 ∧ s = Status.Err ErrStatus.InvalidValue) ∨
         (b = 5 ∧ s = Status.Err ErrStatus.EEPROMLocked) ∨
         (b = 6 ∧ s = Status.Err ErrStatus.CommandNotAvailable))) ∧
    (∀ b : Nat, b ≠ 100 → b ≠ 101 → b ≠ 1 → b ≠ 2 → b ≠ 3 → b ≠ 4 → b ≠ 5 → b ≠ 6 →
      Status.try_from_u8 b = Except.error NonValidErrorCode.mk) := by
  constructor
  · intro b s
    constructor
    · intro h
      unfold Status.try_from_u8 at h
      split_ifs at h <;> simp_all
    · rintro (⟨rfl, rfl⟩ | ⟨rfl, rfl⟩ | ⟨rfl, rfl⟩ | ⟨rfl, rfl⟩ |
              ⟨rfl, rfl⟩ | ⟨rfl, rfl⟩ | ⟨rfl, rfl⟩ | ⟨rfl, rfl⟩) <;> rfl
  · intro b h100 h101 h1 h2 h3 h4 h5 h6
    unfold Status.try_from_u8
    simp [h100, h101, h1, h2, h3, h4, h5, h6]

/-- Claim C4 witness: bytes 7 and 0 decode to the error, byte 100 to plain
success, through the claim theorem. -/
theorem C4_status_try_from_u8_exact_witness :
    Status.try_from_u8 7 = Except.error NonValidErrorCode.mk ∧
    Status.try_from_u8 0 = Except.error NonValidErrorCode.mk ∧
    Status.try_from_u8 100 = Except.ok (Status.Ok OkStatus.Ok) :=
  ⟨C4_status_try_from_u8_exact.2 7 (by decide) (by decide) (by decide) (by decide)
      (by decide) (by decide) (by decide) (by decide),
   C4_status_try_from_u8_exact.2 0 (by decide) (by decide) (by decide) (by decide)
      (by decide) (by decide) (by decide) (by decide),
   (C4_status_try_from_u8_exact.1 100 (Status.Ok OkStatus.Ok)).2 (Or.inl ⟨rfl, rfl⟩)⟩

/-- Claim C5: a SAP instruction can only be constructed over parameter types
with the writeable capability and a GAP instruction only over types with the
readable capability; `ActualSpeed` is readable but not writeable, so no SAP
value over it can exist, while a GAP value over it does. -/
theorem C5_capability_enforcement :
    (∀ s : SAPTyped, s.param ≠ TmcmParam.ActualSpeed) ∧
    (∀ s : SAPTyped, implWriteableAxisParameter s.param = true) ∧
    (∀ g : GAPTyped, implReadableAxisParameter g.param = true) ∧
    implReadableAxisParameter TmcmParam.ActualSpeed = true ∧
    implWriteableAxisParameter TmcmParam.ActualSpeed = false ∧
    (∃ g : GAPTyped, g.param = TmcmParam.ActualSpeed) ∧
    (∃ s : SAPTyped, s.param = TmcmParam.MaximumPositioningSpeed) := by
  refine ⟨?_, fun s => s.writeable, fun g => g.readable, rfl, rfl,
    ⟨⟨0, TmcmParam.ActualSpeed, rfl⟩, rfl⟩,
    ⟨⟨0, TmcmParam.MaximumPositioningSpeed, ⟨0⟩, rfl⟩, rfl⟩⟩
  intro s h
  have hw := s.writeable
  rw [h] at hw
  exact absurd hw (by decide)

/-- Claim C6 (code bug record): `CANSocket::receive_reply` copies the operand
bytes off the wire in frame order, storing `frame.data()[3]` - the most
significant operand byte of the frame layout - at operand index 0, without the
reversal that `serialize_can` applies on the way out and that the documented
`from_operand` convention (index 0 = least significant) requires.  Decoding a
reply whose wire operand is `[0, 0, 0, 1]` (value 1) therefore yields
16777216. -/
theorem C6_can_receive_copies_wire_order :
    CANSocket.receive_reply ⟨2, 1, 100, 6, 9, 8, 7, 6⟩ =
      some (Reply.new 2 1 (Status.Ok OkStatus.Ok) 6 ⟨9, 8, 7, 6⟩) ∧
    CANSocket.receive_reply ⟨2, 1, 100, 6, 0, 0, 0, 1⟩ =
      some (Reply.new 2 1 (Status.Ok OkStatus.Ok) 6 ⟨0, 0, 0, 1⟩) ∧
    u32_from_operand ⟨0, 0, 0, 1⟩ = 16777216 ∧
    u32_from_operand (Op4.reverse ⟨0, 0, 0, 1⟩) = 1 ∧
    ((⟨9, 8, 7, 6⟩ : Op4) ≠ Op4.reverse ⟨9, 8, 7, 6⟩) :=
  ⟨rfl, rfl, rfl, rfl, by decide⟩

/-- Claim C7 (code bug record): both remote-decode failure paths panic instead
of returning a recoverable error - `receive_reply` unwraps
`Status::try_from_u8` on an invalid status byte such as 7, and
`MicrostepResolution` unwraps `try_from_u8` on an out-of-range reply byte such
as 9 (`none` models the `unwrap` panic); the fallible inner conversions
themselves do return errors. -/
theorem C7_remote_decode_panics :
    CANSocket.receive_reply ⟨2, 1, 7, 6, 0, 0, 0, 0⟩ = none ∧
    Status.try_from_u8 7 = Except.error NonValidErrorCode.mk ∧
    MicrostepResolution.deserialize ⟨0, 0, 0, 9⟩ = none ∧
    MicrostepResolution.try_from_u8 9 = Except.error () ∧
    MicrostepResolution.deserialize ⟨0, 0, 0, 6⟩ = some MicrostepResolution.Micro64 :=
  ⟨rfl, rfl, rfl, rfl, rfl⟩

/-- Claim C8 counterexample: the 16-bit writeable parameter
`MaximumPositioningSpeed` with value 1 renders its operand as `[0, 0, 0, 1]`,
not `[1, 0, 0, 0]` as the claimed index-0-least-significant layout demands. -/
theorem C8_counterexample_mps :
    MaximumPositioningSpeed.serialize_value ⟨1⟩ = ⟨0, 0, 0, 1⟩ ∧
    MaximumPositioningSpeed.serialize_value ⟨1⟩ ≠ ⟨1, 0, 0, 0⟩ :=
  ⟨rfl, by decide⟩

/-- Claim C8 as amended: every writeable parameter narrower than 32 bits
confines its value to the semantic width with all other operand bytes zero,
but the index convention depends on the writer: the `axis_param_define_write`
arms place the least significant byte at index 0 (`[v & 0xff, v >> 8, 0, 0]`
for 16 bits), while the TMCM module `serialize_value` writers emit the wire
order, most significant first (`[0, 0, v >> 8, v & 0xff]` for 16 bits). -/
theorem C8_narrow_parameter_layout :
    (∀ v : Nat, v < 256 → axis_param_define_write_u8 v = ⟨v, 0, 0, 0⟩) ∧
    (∀ v : Nat, v < 65536 →
      axis_param_define_write_u16 v = ⟨v % 256, v / 256, 0, 0⟩ ∧
      u16_from_operand (axis_param_define_write_u16 v) = v) ∧
    (∀ v : Int, -32768 ≤ v → v < 32768 →
      (axis_param_define_write_i16 v).b2 = 0 ∧ (axis_param_define_write_i16 v).b3 = 0 ∧
      i16_from_operand (axis_param_define_write_i16 v) = v) ∧
    (∀ b : Bool, axis_param_define_write_bool b = ⟨cond b 1 0, 0, 0, 0⟩) ∧
    (∀ s : Nat, s < 65536 →
      MaximumPositioningSpeed.serialize_value ⟨s⟩ = ⟨0, 0, s / 256, s % 256⟩) ∧
    (∀ c : Nat, c < 65536 →
      AbsoluteMaxCurrent.serialize_value ⟨c⟩ = ⟨0, 0, c / 256, c % 256⟩) ∧
    (∀ b : Bool, RightLimitSwitchDisable.serialize_value ⟨b⟩ = ⟨0, 0, 0, cond b 1 0⟩) ∧
    (∀ b : Bool, LeftLimitSwitchDisable.serialize_value ⟨b⟩ = ⟨0, 0, 0, cond b 1 0⟩) ∧
    (∀ m : MicrostepResolution,
      MicrostepResolution.serialize_value m = ⟨0, 0, 0, m.discriminant⟩ ∧
      m.discriminant ≤ 6) := by
  refine ⟨?_, ?_, ?_, fun b => rfl, ?_, ?_, fun b => rfl, fun b => rfl, ?_⟩
  · intro v h
    simp [axis_param_define_write_u8, Op4.mk.injEq]
    omega
  · intro v h
    refine ⟨?_, ?_⟩
    · simp [axis_param_define_write_u16, Op4.mk.injEq]
      omega
    · simp only [u16_from_operand, axis_param_define_write_u16]
      omega
  · intro v h1 h2
    refine ⟨rfl, rfl, ?_⟩
    simp only [i16_from_operand, u16_from_operand, axis_param_define_write_i16,
      u16_as_i16, int_as_u8]
    split <;> omega
  · intro s h
    simp [MaximumPositioningSpeed.serialize_value, Op4.mk.injEq]
    omega
  · intro c h
    simp [AbsoluteMaxCurrent.serialize_value, Op4.mk.injEq]
    omega
  · intro m
    cases m <;> exact ⟨rfl, by decide⟩

/-- Claim C8 witness: the amended layout at value 513 for both writer
conventions, through the amended theorem. -/
theorem C8_narrow_parameter_layout_witness :
    MaximumPositioningSpeed.serialize_value ⟨513⟩ = ⟨0, 0, 2, 1⟩ ∧
    axis_param_define_write_u16 513 = ⟨1, 2, 0, 0⟩ :=
  ⟨C8_narrow_parameter_layout.2.2.2.2.1 513 (by decide),
   (C8_narrow_parameter_layout.2.1 513 (by decide)).1⟩

/-- Claim C9: the serial and I2C serializations of every command are
unimplemented - both bodies are an unconditional panic, modelled as `none` -
while the CAN serialization is a total function producing a 7-byte frame. -/
theorem C9_serialize_unimplemented :
    (∀ (T : Type) [Instruction T] (c : Command T), c.serialize = none) ∧
    (∀ (T : Type) [Instruction T] (c : Command T), c.serialize_i2c = none) ∧
    (∀ (T : Type) [Instruction T] (c : Command T), c.serialize_can.length = 7) :=
  ⟨fun _ _ _ => rfl, fun _ _ _ => rfl, fun _ _ _ => rfl⟩

/-- Claim C10: the TMCM axis-parameter decoders use the byte order opposite to
the primitive decoders - `ActualSpeed::deserialize` agrees with the primitive
i16 decoder applied to the reversed operand (and `ActualPosition` with the
reversed i32 decoder), so on the operand `[1, 0, 0, 0]` the parameter decode
(0) and the primitive decode (1) disagree. -/
theorem C10_tmcm_decoders_reverse_primitive :
    (∀ a : Op4, (ActualSpeed.deserialize a).speed = i16_from_operand a.reverse) ∧
    (∀ a : Op4, (ActualPosition.deserialize a).pos = i32_from_operand a.reverse) ∧
    (ActualSpeed.deserialize ⟨1, 0, 0, 0⟩).speed = 0 ∧
    i16_from_operand ⟨1, 0, 0, 0⟩ = 1 ∧
    (ActualSpeed.deserialize ⟨1, 0, 0, 0⟩).speed ≠ i16_from_operand ⟨1, 0, 0, 0⟩ :=
  ⟨fun _ => rfl, fun _ => rfl, by decide, by decide, by decide⟩

end Tmcl
